import Mathlib

/-!
Verification of `docs/features/old/2025-06-02-app-logo/generate_app_icons.py`
from the filmz2 repository.

The script holds a static table `ICON_SIZES` of icon specifications, a
generation function `generate_icons(source_path, output_dir)` that invokes
the macOS `sips` tool once per table entry, and `update_contents_json`
which builds the `Contents.json` manifest and serializes it with
`json.dump(contents, f, indent=2)`.

Shallow embedding conventions:
* Python numbers in the table are embedded as `ℚ` for the `size` column
  (it holds the float literal `83.5` next to integer literals) and as `ℤ`
  for the `scale` column (every scale literal in the table is an `int`).
* `int(x)` on a nonnegative numeric value truncates toward zero; we model
  it as `pyInt` via truncating integer division of the reduced fraction.
* Filesystem and subprocess effects are made explicit: `generate_icons`
  takes booleans for the two precondition probes (`os.path.exists` and
  `which sips`), an oracle `ok : Nat → Bool` giving the exit status of the
  n-th `sips` invocation, and returns a `GenOutcome` recording the result
  flag, the directories created, the `sips` invocations attempted (in
  order) and the files actually written.
* `json.dump` with `indent=2` is modelled by `jdump`, faithful to the
  Python standard library's pretty printer on the subset of JSON the
  script produces (strings without escapes, small integers, arrays,
  objects).
-/

/-- One row of the `ICON_SIZES` table: `(size, scale, filename_prefix, idiom)`.
The Python tuple field `prefix` is a Lean keyword, so it is named `pfx` here. -/
structure IconSpec where
  size : ℚ
  scale : ℤ
  pfx : String
  idiom : String
deriving DecidableEq, Repr

/-- The static table `ICON_SIZES` from the script, in source order. -/
def ICON_SIZES : List IconSpec := [
  -- iOS sizes
  ⟨20, 2, "icon_20pt", "iphone"⟩,
  ⟨20, 3, "icon_20pt", "iphone"⟩,
  ⟨29, 2, "icon_29pt", "iphone"⟩,
  ⟨29, 3, "icon_29pt", "iphone"⟩,
  ⟨40, 2, "icon_40pt", "iphone"⟩,
  ⟨40, 3, "icon_40pt", "iphone"⟩,
  ⟨60, 2, "icon_60pt", "iphone"⟩,
  ⟨60, 3, "icon_60pt", "iphone"⟩,
  -- iPad sizes
  ⟨20, 1, "icon_20pt", "ipad"⟩,
  ⟨20, 2, "icon_20pt", "ipad"⟩,
  ⟨29, 1, "icon_29pt", "ipad"⟩,
  ⟨29, 2, "icon_29pt", "ipad"⟩,
  ⟨40, 1, "icon_40pt", "ipad"⟩,
  ⟨40, 2, "icon_40pt", "ipad"⟩,
  ⟨76, 1, "icon_76pt", "ipad"⟩,
  ⟨76, 2, "icon_76pt", "ipad"⟩,
  ⟨83.5, 2, "icon_83.5pt", "ipad"⟩,
  -- App Store
  ⟨1024, 1, "icon_1024pt", "ios-marketing"⟩,
  -- macOS sizes
  ⟨16, 1, "icon_16pt", "mac"⟩,
  ⟨16, 2, "icon_16pt", "mac"⟩,
  ⟨32, 1, "icon_32pt", "mac"⟩,
  ⟨32, 2, "icon_32pt", "mac"⟩,
  ⟨128, 1, "icon_128pt", "mac"⟩,
  ⟨128, 2, "icon_128pt", "mac"⟩,
  ⟨256, 1, "icon_256pt", "mac"⟩,
  ⟨256, 2, "icon_256pt", "mac"⟩,
  ⟨512, 1, "icon_512pt", "mac"⟩,
  ⟨512, 2, "icon_512pt", "mac"⟩]

/-- Python `int(q)` for an exact rational value: truncation toward zero.
`Int.tdiv` is T-division, matching Python's `int()` on our nonnegative
values. (All products `size * scale` in the table are exactly
representable as binary floats, so float rounding never intervenes.) -/
def pyInt (q : ℚ) : ℤ := q.num.tdiv (q.den : ℤ)

/-- Python `str()` of a non-integral float with exactly one decimal digit;
the sole fractional value in `ICON_SIZES` is `83.5`, which is of this
shape. -/
def pyFloatStr (q : ℚ) : String :=
  toString (pyInt q) ++ "." ++ toString ((q - (pyInt q : ℚ)) * 10).num

/-- `pixel_size = int(size * scale)` — generate_icons, line 74. -/
def pixel_size (s : IconSpec) : ℤ := pyInt (s.size * (s.scale : ℚ))

/-- Filename derivation in `generate_icons`, lines 77–80:
`f"{prefix}.png"` when `scale == 1`, else `f"{prefix}@{scale}x.png"`.
`scale` is an `int` in every table row, so the f-string renders it
without a decimal point. -/
def generate_filename (s : IconSpec) : String :=
  if s.scale = 1 then s.pfx ++ ".png"
  else s.pfx ++ "@" ++ toString s.scale ++ "x.png"

/-- Filename derivation in `update_contents_json`, lines 114–118 — the
same two-branch computation, repeated verbatim in the source. -/
def contents_filename (s : IconSpec) : String :=
  if s.scale = 1 then s.pfx ++ ".png"
  else s.pfx ++ "@" ++ toString s.scale ++ "x.png"

/-- `size_str = f"{int(size)}x{int(size)}" if size % 1 == 0 else
f"{size}x{size}"` — update_contents_json, line 121. `size % 1 == 0`
holds exactly when the rational value is an integer. -/
def size_str (s : IconSpec) : String :=
  if s.size.den = 1 then
    toString (pyInt s.size) ++ "x" ++ toString (pyInt s.size)
  else
    pyFloatStr s.size ++ "x" ++ pyFloatStr s.size

/-- `scale_str = f"{int(scale)}x" if scale % 1 == 0 else f"{scale}x"` —
update_contents_json, line 124. Every `scale` in the table is an `int`,
so `scale % 1 == 0` always holds and `int(scale)` is the identity. -/
def scale_str (s : IconSpec) : String := toString s.scale ++ "x"

/-- One invocation of the `sips` resize capability, lines 85–92:
target width = target height = `pixelSize`, input `source`, output
`outPath`, format PNG. -/
structure SipsCall where
  pixelSize : ℤ
  source : String
  outPath : String
deriving DecidableEq, Repr

/-- The outcome of a `generate_icons` run: the returned boolean, the
directories created, the `sips` invocations attempted in order, and the
calls whose output file was actually written (the successful ones). -/
structure GenOutcome where
  result : Bool
  dirsCreated : List String
  sipsCalls : List SipsCall
  written : List SipsCall
deriving DecidableEq, Repr

/-- The `for size, scale, prefix, idiom in ICON_SIZES` loop of
`generate_icons` (lines 72–98), over an arbitrary suffix of the table.
`n` is the absolute index of the next invocation; `ok n` is the success
of the n-th `sips` run. Returns (result flag, attempted calls, written
files). On a failed invocation the loop returns `False` at once
(`return False` inside the `except` branch), attempting no later entry. -/
def genLoop (ok : Nat → Bool) (source_path output_dir : String) :
    List IconSpec → Nat → Bool × List SipsCall × List SipsCall
  | [], _ => (true, [], [])
  | s :: rest, n =>
    let call : SipsCall :=
      ⟨pixel_size s, source_path, output_dir ++ "/" ++ generate_filename s⟩
    if ok n then
      let r := genLoop ok source_path output_dir rest (n + 1)
      (r.1, call :: r.2.1, call :: r.2.2)
    else
      (false, [call], [])

/-- `generate_icons(source_path, output_dir)`, lines 51–100. In source
order: `output_dir.mkdir(parents=True, exist_ok=True)` runs first,
unconditionally; then the `os.path.exists(source_path)` check returns
`False` on a missing source; then the `which sips` probe returns `False`
when the capability is unavailable; then the resize loop runs. -/
def generate_icons (source_exists sips_available : Bool) (ok : Nat → Bool)
    (source_path output_dir : String) : GenOutcome :=
  -- mkdir happens before either precondition check
  let dirs := [output_dir]
  if source_exists = false then
    ⟨false, dirs, [], []⟩
  else if sips_available = false then
    ⟨false, dirs, [], []⟩
  else
    let r := genLoop ok source_path output_dir ICON_SIZES 0
    ⟨r.1, dirs, r.2.1, r.2.2⟩

/-- JSON documents as produced by the script: strings (no escapes
needed), integers, arrays, and objects with insertion-ordered fields
(Python dicts preserve insertion order). -/
inductive JValue where
  | str (s : String)
  | int (n : ℤ)
  | arr (elems : List JValue)
  | obj (fields : List (String × JValue))
deriving Repr

/-- A run of `n` spaces. -/
def spaces (n : Nat) : String := String.mk (List.replicate n ' ')

mutual
/-- `json.dump(v, f, indent=indent)` on the subset of JSON the script
emits: items one per line, each indented by `indent * depth` spaces,
`": "` between a key and its value, `,` after each non-final item, the
closing bracket on its own line at the parent's indentation. -/
def jdump (indent depth : Nat) : JValue → String
  | .str s => "\"" ++ s ++ "\""
  | .int n => toString n
  | .arr [] => "[]"
  | .arr (x :: xs) =>
    "[\n" ++ String.intercalate ",\n" (jdumpList indent (depth + 1) (x :: xs)) ++
      "\n" ++ spaces (indent * depth) ++ "]"
  | .obj [] => "\x7b\x7d"
  | .obj (f :: fs) =>
    "\x7b\n" ++ String.intercalate ",\n" (jdumpFields indent (depth + 1) (f :: fs)) ++
      "\n" ++ spaces (indent * depth) ++ "\x7d"

/-- The serialized items of an array, each on its own indented line. -/
def jdumpList (indent depth : Nat) : List JValue → List String
  | [] => []
  | v :: vs =>
    (spaces (indent * depth) ++ jdump indent depth v) :: jdumpList indent depth vs

/-- The serialized fields of an object, each on its own indented line. -/
def jdumpFields (indent depth : Nat) : List (String × JValue) → List String
  | [] => []
  | (k, v) :: fs =>
    (spaces (indent * depth) ++ "\"" ++ k ++ "\": " ++ jdump indent depth v) ::
      jdumpFields indent depth fs
end

/-- One element of the `images` array, fields in source insertion order
`filename`, `idiom`, `scale`, `size` (update_contents_json,
lines 126–131). -/
def imageEntry (s : IconSpec) : JValue :=
  .obj [("filename", .str (contents_filename s)),
        ("idiom", .str s.idiom),
        ("scale", .str (scale_str s)),
        ("size", .str (size_str s))]

/-- The `contents` document of `update_contents_json` (lines 105–133):
`images` populated by the loop over `ICON_SIZES`, `info` fixed. -/
def contentsJson : JValue :=
  .obj [("images", .arr (ICON_SIZES.map imageEntry)),
        ("info", .obj [("author", .str "xcode"), ("version", .int 1)])]

/-- `update_contents_json(output_dir)` (lines 103–141): returns the path
of the file written (`output_dir / "Contents.json"`) and its content,
`json.dump(contents, f, indent=2)`. -/
def update_contents_json (output_dir : String) : String × String :=
  (output_dir ++ "/Contents.json", jdump 2 0 contentsJson)

set_option maxRecDepth 8000

/-- If every `sips` invocation before absolute index `i + n` succeeds and
the one at `i + n` fails, the loop over the remaining entries returns
`false` and attempts exactly `n + 1` invocations. -/
lemma genLoop_first_failure (ok : Nat → Bool) (src od : String) :
    ∀ (l : List IconSpec) (i n : Nat), n < l.length →
    (∀ k, k < n → ok (i + k) = true) → ok (i + n) = false →
    (genLoop ok src od l i).1 = false ∧
      (genLoop ok src od l i).2.1.length = n + 1 := by
  intro l
  induction l with
  | nil =>
    intro i n hn _ _
    simp at hn
  | cons s rest ih =>
    intro i n hn hb hf
    cases n with
    | zero =>
      have h0 : ok i = false := by simpa using hf
      simp [genLoop, h0]
    | succ m =>
      have h0 : ok i = true := by simpa using hb 0 (Nat.succ_pos m)
      have hb' : ∀ k, k < m → ok (i + 1 + k) = true := by
        intro k hk
        have := hb (k + 1) (by omega)
        rwa [show i + (k + 1) = i + 1 + k by omega] at this
      have hf' : ok (i + 1 + m) = false := by
        rwa [show i + (m + 1) = i + 1 + m by omega] at hf
      have hm : m < rest.length := by simpa using Nat.lt_of_succ_lt_succ hn
      obtain ⟨h1, h2⟩ := ih (i + 1) m hm hb' hf'
      refine ⟨by simp [genLoop, h0, h1], ?_⟩
      simp [genLoop, h0, h2]

/-- When every `sips` invocation succeeds, the loop returns `true` and
attempts and writes exactly one file per remaining entry, in order. -/
lemma genLoop_all_ok (src od : String) :
    ∀ (l : List IconSpec) (i : Nat),
    genLoop (fun _ => true) src od l i =
      (true, l.map (fun s => ⟨pixel_size s, src, od ++ "/" ++ generate_filename s⟩),
             l.map (fun s => ⟨pixel_size s, src, od ++ "/" ++ generate_filename s⟩)) := by
  intro l
  induction l with
  | nil => intro i; rfl
  | cons s rest ih => intro i; simp [genLoop, ih]

/-- C1: for every entry of the size table, `generate_icons` derives the
output filename as `{prefix}.png` when scale = 1 and as
`{prefix}@{scale}x.png` when scale ≠ 1, with the integral scale rendered
without a trailing ".0" (no "." appears in the rendered scale at all),
and an "@" appears in the filename exactly when scale ≠ 1. -/
theorem filename_derivation_ok :
    ∀ s ∈ ICON_SIZES,
    (s.scale = 1 → generate_filename s = s.pfx ++ ".png") ∧
    (s.scale ≠ 1 → generate_filename s = s.pfx ++ "@" ++ toString s.scale ++ "x.png") ∧
    '.' ∉ (toString s.scale).data ∧
    ((s.scale = 1) ↔ '@' ∉ (generate_filename s).data) := by
  decide

/-- Witness for C1 at the first table entry (scale 2): the derived
filename carries the `@2x` suffix. -/
theorem filename_derivation_ok_witness :
    generate_filename ⟨20, 2, "icon_20pt", "iphone"⟩ =
      "icon_20pt" ++ "@" ++ toString (2 : ℤ) ++ "x.png" :=
  (filename_derivation_ok _ (List.Mem.head _)).2.1 (by decide)

/-- C2: for every entry of the size table, the pixel size passed to the
resize capability equals round(edge_length × scale); in particular
edge_length 83.5 at scale 2 yields 167 and edge_length 20 at scale 3
yields 60. -/
theorem pixel_size_eq_round :
    (∀ s ∈ ICON_SIZES, pixel_size s = round (s.size * (s.scale : ℚ))) ∧
    pixel_size ⟨83.5, 2, "icon_83.5pt", "ipad"⟩ = 167 ∧
    pixel_size ⟨20, 3, "icon_20pt", "iphone"⟩ = 60 := by
  refine ⟨?_, ?_, ?_⟩
  · intro s hs
    fin_cases hs <;>
    · norm_num [pixel_size, pyInt, round_eq]
      try decide
  · norm_num [pixel_size, pyInt]
    try decide
  · norm_num [pixel_size, pyInt]
    try decide

/-- Witness for C2 at the first table entry: 20 pt at scale 2 resizes to
round(20 × 2) pixels. -/
theorem pixel_size_eq_round_witness :
    pixel_size ⟨20, 2, "icon_20pt", "iphone"⟩ = round ((20 : ℚ) * ((2 : ℤ) : ℚ)) :=
  pixel_size_eq_round.1 _ (List.Mem.head _)

/-- C3: if the resize invocation at index `n` fails and all earlier ones
succeed, `generate_icons` returns failure and the number of resize
invocations attempted is exactly `n + 1` — no later table entry is
processed. -/
theorem resize_failure_aborts (ok : Nat → Bool) (src od : String) (n : Nat)
    (hn : n < ICON_SIZES.length)
    (hb : ∀ k, k < n → ok k = true) (hf : ok n = false) :
    (generate_icons true true ok src od).result = false ∧
    (generate_icons true true ok src od).sipsCalls.length = n + 1 := by
  have h := genLoop_first_failure ok src od ICON_SIZES 0 n hn (by simpa using hb)
    (by simpa using hf)
  simpa [generate_icons] using h

/-- Witness for C3: with a capability that fails on the third invocation
(index 2), the run fails after exactly three attempts. -/
theorem resize_failure_aborts_witness :
    (generate_icons true true (fun k => decide (k ≠ 2)) "filmz.png" "out").result = false ∧
    (generate_icons true true (fun k => decide (k ≠ 2)) "filmz.png" "out").sipsCalls.length
      = 2 + 1 :=
  resize_failure_aborts (fun k => decide (k ≠ 2)) "filmz.png" "out" 2
    (by decide) (by decide) (by decide)

/-- C4: when the source file does not exist, `generate_icons` returns
failure with zero resize invocations and no file written; the only
filesystem effect is the creation of the output directory. -/
theorem missing_source_returns_failure (sips_available : Bool) (ok : Nat → Bool)
    (src od : String) :
    generate_icons false sips_available ok src od =
      ⟨false, [od], [], []⟩ := by
  rfl

/-- Witness for C4 at concrete arguments. -/
theorem missing_source_returns_failure_witness :
    generate_icons false true (fun _ => true) "filmz.png" "out" =
      ⟨false, ["out"], [], []⟩ :=
  missing_source_returns_failure true (fun _ => true) "filmz.png" "out"

/-- C5: the manifest document contains exactly one image entry per
size-table entry, in table order with no duplicates dropped (the entries
are pairwise distinct even though three filenames repeat across idioms),
each entry with fields in the order filename, idiom, scale, size; the
top-level info object is `author: xcode, version: 1`; and the file text
is the document serialized with 2-space indentation (its opening lines
are indented 0, 2 and 4 spaces). -/
theorem manifest_document_structure :
    contentsJson = JValue.obj
      [("images", JValue.arr (ICON_SIZES.map imageEntry)),
       ("info", JValue.obj [("author", JValue.str "xcode"), ("version", JValue.int 1)])] ∧
    (ICON_SIZES.map imageEntry).length = ICON_SIZES.length ∧
    ICON_SIZES.map imageEntry = ICON_SIZES.map (fun s =>
      JValue.obj [("filename", JValue.str (contents_filename s)),
                  ("idiom", JValue.str s.idiom),
                  ("scale", JValue.str (scale_str s)),
                  ("size", JValue.str (size_str s))]) ∧
    ¬ (ICON_SIZES.map contents_filename).Nodup ∧
    (ICON_SIZES.map (fun s => (contents_filename s, s.idiom))).Nodup ∧
    (update_contents_json "AppIcon.appiconset").2 = jdump 2 0 contentsJson ∧
    (update_contents_json "AppIcon.appiconset").2.data.take 22 =
      "\x7b\n  \"images\": [\n    \x7b\n".data := by
  refine ⟨rfl, by simp, rfl, by decide, by decide, rfl, by decide⟩

/-- C6: the manifest size field renders `{w}x{h}` with w = h =
edge_length, with a decimal point exactly when the edge length is
fractional (`1024x1024`, `83.5x83.5`), and the scale field renders
`{n}x` with no ".0" (no "." at all) for the integral scales of the
table. -/
theorem manifest_size_scale_rendering :
    (∀ s ∈ ICON_SIZES,
      ((s.size.den = 1) ↔ '.' ∉ (size_str s).data) ∧
      scale_str s = toString s.scale ++ "x" ∧
      '.' ∉ (scale_str s).data) ∧
    size_str ⟨1024, 1, "icon_1024pt", "ios-marketing"⟩ = "1024x1024" ∧
    size_str ⟨83.5, 2, "icon_83.5pt", "ipad"⟩ = "83.5x83.5" ∧
    scale_str ⟨20, 2, "icon_20pt", "iphone"⟩ = "2x" := by
  refine ⟨?_, ?_, ?_, ?_⟩
  · intro s hs
    fin_cases hs <;>
    · norm_num [size_str, scale_str, pyFloatStr, pyInt]
      try decide
  · norm_num [size_str, pyFloatStr, pyInt]
    try decide
  · norm_num [size_str, pyFloatStr, pyInt, show Int.tdiv 167 2 = 83 from by decide]
    try decide
  · decide

/-- Witness for C6 at the first table entry: integral size 20 renders
without a decimal point and scale 2 renders as "2x". -/
theorem manifest_size_scale_rendering_witness :
    (((20 : ℚ).den = 1) ↔ '.' ∉ (size_str ⟨20, 2, "icon_20pt", "iphone"⟩).data) ∧
    scale_str ⟨20, 2, "icon_20pt", "iphone"⟩ = toString (2 : ℤ) ++ "x" ∧
    '.' ∉ (scale_str ⟨20, 2, "icon_20pt", "iphone"⟩).data :=
  manifest_size_scale_rendering.1 _ (List.Mem.head _)

/-- C7 counterexample: on a fully successful run the set of distinct
destination paths written does not have the same cardinality as the size
table — three (prefix, scale) pairs recur under two idioms, so only 25
distinct paths receive the 28 writes. -/
theorem distinct_paths_count_counterexample :
    ¬ (((generate_icons true true (fun _ => true) "filmz.png"
          "out").written.map SipsCall.outPath).dedup.length = ICON_SIZES.length) := by
  decide

/-- C7 (amended): on a fully successful run, one resize invocation per
table entry (28 of them) writes `output_dir/filename` at the entry's
pixel size, every invocation succeeds and is written, the distinct
destination filenames number 25 (not 28, because `icon_20pt@2x.png`,
`icon_29pt@2x.png` and `icon_40pt@2x.png` are each written for both
iphone and ipad), and the manifest is written as the single file
`output_dir/Contents.json`. -/
theorem successful_run_writes (src od : String) :
    (generate_icons true true (fun _ => true) src od).result = true ∧
    (generate_icons true true (fun _ => true) src od).sipsCalls =
      ICON_SIZES.map (fun s => ⟨pixel_size s, src, od ++ "/" ++ generate_filename s⟩) ∧
    (generate_icons true true (fun _ => true) src od).written =
      (generate_icons true true (fun _ => true) src od).sipsCalls ∧
    (ICON_SIZES.map generate_filename).dedup.length = 25 ∧
    ICON_SIZES.length = 28 ∧
    (update_contents_json od).1 = od ++ "/Contents.json" := by
  have h := genLoop_all_ok src od ICON_SIZES 0
  refine ⟨?_, ?_, ?_, by decide, by decide, rfl⟩
  · simp [generate_icons, h]
  · simp [generate_icons, h]
  · simp [generate_icons, h]

/-- Witness instantiating the amended C7 theorem at concrete paths. -/
theorem successful_run_writes_witness :
    (generate_icons true true (fun _ => true) "filmz.png" "out").result = true ∧
    (generate_icons true true (fun _ => true) "filmz.png" "out").sipsCalls =
      ICON_SIZES.map (fun s =>
        ⟨pixel_size s, "filmz.png", "out" ++ "/" ++ generate_filename s⟩) ∧
    (generate_icons true true (fun _ => true) "filmz.png" "out").written =
      (generate_icons true true (fun _ => true) "filmz.png" "out").sipsCalls ∧
    (ICON_SIZES.map generate_filename).dedup.length = 25 ∧
    ICON_SIZES.length = 28 ∧
    (update_contents_json "out").1 = "out" ++ "/Contents.json" :=
  successful_run_writes "filmz.png" "out"

/-- C8: any two table entries whose (prefix, scale) pairs differ derive
different output filenames — within the table as defined the filename is
unique per (prefix, scale) pair. -/
theorem filename_injective_on_pfx_scale :
    ∀ s ∈ ICON_SIZES, ∀ t ∈ ICON_SIZES,
    (s.pfx, s.scale) ≠ (t.pfx, t.scale) →
    generate_filename s ≠ generate_filename t := by
  decide

/-- Witness for C8 at the first two table entries, which share a prefix
but differ in scale. -/
theorem filename_injective_on_pfx_scale_witness :
    generate_filename ⟨20, 2, "icon_20pt", "iphone"⟩ ≠
      generate_filename ⟨20, 3, "icon_20pt", "iphone"⟩ :=
  filename_injective_on_pfx_scale _ (List.Mem.head _) _
    (List.Mem.tail _ (List.Mem.head _)) (by decide)

/-- C9: the filename `update_contents_json` writes into the manifest is
the same as the one `generate_icons` derives, for every specification —
the two duplicated derivations in the source agree, so each manifest
entry names exactly the file the generation loop wrote for that table
entry. -/
theorem contents_filename_agrees :
    (∀ s : IconSpec, contents_filename s = generate_filename s) ∧
    ICON_SIZES.map contents_filename = ICON_SIZES.map generate_filename :=
  ⟨fun _ => rfl, rfl⟩

/-- Witness for C9 at the first table entry. -/
theorem contents_filename_agrees_witness :
    contents_filename ⟨20, 2, "icon_20pt", "iphone"⟩ =
      generate_filename ⟨20, 2, "icon_20pt", "iphone"⟩ :=
  contents_filename_agrees.1 _

/-- C10: `generate_icons` creates the output directory unconditionally,
before the source-existence and capability checks — a run failing with a
missing source or a missing resize tool still records the directory as
created, returns failure, and attempts no resize invocation. -/
theorem mkdir_before_checks (sips_available : Bool) (ok : Nat → Bool)
    (src od : String) :
    (generate_icons false sips_available ok src od).dirsCreated = [od] ∧
    (generate_icons true false ok src od).dirsCreated = [od] ∧
    (generate_icons true true ok src od).dirsCreated = [od] ∧
    (generate_icons false sips_available ok src od).result = false ∧
    (generate_icons true false ok src od).result = false ∧
    (generate_icons false sips_available ok src od).sipsCalls = [] ∧
    (generate_icons true false ok src od).sipsCalls = [] :=
  ⟨rfl, rfl, rfl, rfl, rfl, rfl, rfl⟩

/-- Witness instantiating C10 at concrete arguments. -/
theorem mkdir_before_checks_witness :
    (generate_icons false true (fun _ => true) "filmz.png" "out").dirsCreated = ["out"] ∧
    (generate_icons true false (fun _ => true) "filmz.png" "out").dirsCreated = ["out"] ∧
    (generate_icons true true (fun _ => true) "filmz.png" "out").dirsCreated = ["out"] ∧
    (generate_icons false true (fun _ => true) "filmz.png" "out").result = false ∧
    (generate_icons true false (fun _ => true) "filmz.png" "out").result = false ∧
    (generate_icons false true (fun _ => true) "filmz.png" "out").sipsCalls = [] ∧
    (generate_icons true false (fun _ => true) "filmz.png" "out").sipsCalls = [] :=
  mkdir_before_checks true (fun _ => true) "filmz.png" "out"
